import Mathlib

/-!
Shallow embedding of the runtime-state validation engine of
opencontainers/ocitools (runtime-tools), for checking its natural-language
specification.  The embedding follows two source files:

* `src/cmd/runtimetest/main.go` — the current `runtimetest` binary
  (namespace `Runtimetest` below); and
* `src/unnamed/part_001` — an earlier variant of `runtimetest` that carries
  the mount-topology check (namespace `RuntimetestV0` below).

Go `error` results are modelled by `Option GoErr` (`none` = nil error).
A Go function that may panic (index out of range, nil dereference) is
modelled with result type `Option α` where `none` stands for the panic;
the combined type `GoRes = Option (Option GoErr)` therefore reads:
`none` = the function panics, `some none` = returns nil,
`some (some e)` = returns the error `e`.
-/

/-- Modelled from the spec: the RFC2119 requirement-strength levels used by
the rfc2119 error package (`github.com/opencontainers/runtime-tools/error`),
which is part of this repository but not present under `src/`.  The spec
orders them MAY < SHOULD < MUST with MUST the strongest. -/
inductive Level where
  | may
  | should
  | must
deriving DecidableEq

def Level.toNat : Level → Nat
  | .may => 0
  | .should => 1
  | .must => 2

instance : LT Level := ⟨fun a b => a.toNat < b.toNat⟩

instance : LE Level := ⟨fun a b => a.toNat ≤ b.toNat⟩

instance (a b : Level) : Decidable (a < b) :=
  inferInstanceAs (Decidable (a.toNat < b.toNat))

instance (a b : Level) : Decidable (a ≤ b) :=
  inferInstanceAs (Decidable (a.toNat ≤ b.toNat))

/-- Modelled from the spec: `rfc2119.ParseLevel` of the rfc2119 error package
(not under `src/`): it recognises the three requirement-strength names. -/
def parseLevel : String → Option Level
  | "may" => some .may
  | "should" => some .should
  | "must" => some .must
  | _ => none

/-- Modelled from the spec: `run` falls back to MUST (the strongest level)
when the `compliance-level` flag does not parse. -/
def complianceFromString (s : String) : Level :=
  (parseLevel s).getD .must

/-- A Go `error` value as produced by the checks: a message, and the
requirement-strength tag when the error is an `*rfc2119.Error`
(`none` for a plain `fmt.Errorf` error). -/
structure GoErr where
  msg : String
  level : Option Level
deriving DecidableEq

/-- Result of a Go function returning `error`, with panic tracking:
`none` = panic, `some none` = nil error, `some (some e)` = error `e`. -/
abbrev GoRes := Option (Option GoErr)

def goOk : GoRes := some none

def goErr (msg : String) : GoRes := some (some ⟨msg, none⟩)

def goErrL (l : Level) (msg : String) : GoRes := some (some ⟨msg, some l⟩)

/-- Runs `f` on each element in order, returning the first panic or error
(the shape of every `for … { if bad { return err } }` loop in the source). -/
def goSeq (f : α → GoRes) : List α → GoRes
  | [] => some none
  | x :: xs =>
    match f x with
    | none => none
    | some (some e) => some (some e)
    | some none => goSeq f xs

/-- Models Go's `strings.Split` for a single-character separator
(structural recursion, so concrete runs reduce in the kernel). -/
def splitOnCharList (c : Char) : List Char → List (List Char)
  | [] => [[]]
  | x :: xs =>
    match splitOnCharList c xs with
    | [] => [[x]]
    | y :: ys => if x = c then [] :: y :: ys else (x :: y) :: ys

/-- `strings.Split s (String.mk [c])`. -/
def goSplit (s : String) (c : Char) : List String :=
  (splitOnCharList c s.toList).map String.mk

/-- Whether a path is rooted (starts with the separator). -/
def goStartsWithSlash (s : String) : Bool := s.toList.head? == some '/'

/-- `strings.ToUpper` for the ASCII names the checks handle. -/
def goToUpper (s : String) : String := String.mk (s.toList.map Char.toUpper)

/-- `strings.Replace s a b -1` for single-character patterns. -/
def goReplaceChar (s : String) (a b : Char) : String :=
  String.mk (s.toList.map (fun ch => if ch = a then b else ch))

/-- The ASCII white space recognised by `strings.TrimSpace`. -/
def goIsSpace (c : Char) : Bool :=
  c = ' ' || c = '\t' || c = '\n' || c = '\r' || c = Char.ofNat 11 || c = Char.ofNat 12

/-- `strings.TrimSpace` (ASCII range). -/
def goTrimSpace (s : String) : String :=
  String.mk (((s.toList.dropWhile goIsSpace).reverse.dropWhile goIsSpace).reverse)

/-- Models Go's `path/filepath.Clean` for slash-separated paths (the only
separator relevant on the platforms the checks run on). -/
def filepathClean (p : String) : String :=
  let rooted := goStartsWithSlash p
  let segs := (goSplit p '/').foldl
    (fun acc s =>
      if s = "" || s = "." then acc
      else if s = ".." then
        if acc ≠ [] && acc.getLast? ≠ some ".." then acc.dropLast
        else if rooted then acc else acc ++ [".."]
      else acc ++ [s]) []
  if rooted then
    if segs = [] then "/" else "/" ++ String.intercalate "/" segs
  else
    if segs = [] then "." else String.intercalate "/" segs

/-- Models Go's `path/filepath.Join` of two components: concatenation with a
separator followed by `Clean` (empty components are dropped by `Clean`). -/
def filepathJoin (a b : String) : String :=
  filepathClean (a ++ "/" ++ b)

/-- `rspec.LinuxIDMapping`: one line of a uid/gid mapping table. -/
structure LinuxIDMapping where
  hostID : Nat
  containerID : Nat
  size : Nat
deriving DecidableEq

/-- `rspec.Mount` as used by the checks: destination, type, source. -/
structure Mount where
  destination : String
  type : String
  source : String
deriving DecidableEq

/-- One record of the live mount table (`mount.Info`), in kernel order. -/
structure MountInfo where
  mountpoint : String
  fstype : String
  source : String
deriving DecidableEq

/-- The file kind encoded in `stat.Mode & S_IFMT`. -/
inductive FileKind where
  | char
  | block
  | fifo
  | symlink
  | dir
  | regular
deriving DecidableEq

/-- The fields of a `stat`/`lstat` result that the checks read. -/
structure FileStat where
  kind : FileKind
  perm : Nat
  rdev : Nat
  uid : Nat
  gid : Nat
deriving DecidableEq

/-- A platform capability as enumerated by `capability.List()`:
its numeric value and its lower-case name (`cap.String()`). -/
structure Cap where
  idx : Nat
  name : String
deriving DecidableEq

/-- The five capability sets. -/
inductive CapSet where
  | bounding
  | effective
  | inheritable
  | permitted
  | ambient
deriving DecidableEq

def CapSet.label : CapSet → String
  | .bounding => "bounding"
  | .effective => "effective"
  | .inheritable => "inheritable"
  | .permitted => "permitted"
  | .ambient => "ambient"

/-- The order in which `validateCapabilities` compares the five sets. -/
def capSetsOrder : List CapSet :=
  [.bounding, .effective, .inheritable, .permitted, .ambient]

/-- `rspec.LinuxCapabilities`: the five declared capability-name lists. -/
structure Capabilities where
  bounding : List String
  effective : List String
  inheritable : List String
  permitted : List String
  ambient : List String
deriving DecidableEq

def Capabilities.ofSet (c : Capabilities) : CapSet → List String
  | .bounding => c.bounding
  | .effective => c.effective
  | .inheritable => c.inheritable
  | .permitted => c.permitted
  | .ambient => c.ambient

/-- `rspec.User`: the declared process identity. -/
structure User where
  uid : Nat
  gid : Nat
  additionalGids : List Nat
deriving DecidableEq

/-- `rspec.POSIXRlimit`: one declared resource limit. -/
structure Rlimit where
  type : String
  soft : Nat
  hard : Nat
deriving DecidableEq

/-- `rspec.Process` (the fields the checks read).  The embedding considers
configurations that carry a process object (a nil `Spec.Process` would make
several checks dereference nil). -/
structure Process where
  terminal : Bool
  cwd : String
  env : List String
  args : List String
  noNewPrivileges : Bool
  user : User
  capabilities : Option Capabilities
  rlimits : List Rlimit
  oomScoreAdj : Option Int
deriving DecidableEq

/-- `rspec.LinuxDevice`: one declared device node. -/
structure LinuxDevice where
  path : String
  type : String
  major : Int
  minor : Int
  fileMode : Option Nat
  uid : Option Nat
  gid : Option Nat
deriving DecidableEq

/-- `rspec.Linux` (the fields the checks read).  Go maps (`Sysctl`) are
modelled as association lists in a fixed iteration order. -/
structure LinuxSpec where
  devices : List LinuxDevice
  sysctl : List (String × String)
  maskedPaths : List String
  readonlyPaths : List String
  uidMappings : List LinuxIDMapping
  gidMappings : List LinuxIDMapping
deriving DecidableEq

/-- `rspec.Root`. -/
structure Root where
  readonly : Bool
deriving DecidableEq

/-- `rspec.Spec` (the fields the checks read). -/
structure Spec where
  hostname : String
  root : Root
  process : Process
  mounts : List Mount
  linux : Option LinuxSpec
deriving DecidableEq

/-- Result of opening a masked path and reading one byte:
either the open itself failed, or a read happened and either hit
end-of-file immediately (`eof = true`) or returned data / another error. -/
inductive ReadProbe where
  | openFail (msg : String)
  | readRes (eof : Bool)
deriving DecidableEq

/-- The live operating-system state sampled by the checks.  Each field
models one kernel/OS query of `cmd/runtimetest/main.go`; queries whose
failure modes are not exercised by any claim (e.g. `os.Getwd` errors) are
modelled as always answering. -/
structure Live where
  cwd : String
  getenv : String → String
  uid : Nat
  gid : Nat
  groups : List Nat
  cmdlineArgs : List String
  noNewPrivs : Bool
  capMax : Nat
  capList : List Cap
  capGet : CapSet → Nat → Bool
  hostname : String
  rlimitResolve : String → Option Nat
  getrlimit : Nat → Nat × Nat
  sysctlRaw : String → Option String
  stat : String → Option FileStat
  lstat : String → Option FileStat
  readlink : String → Option String
  mounts : List MountInfo
  oomScoreAdj : Int
  uidMapLines : List (List Nat)
  gidMapLines : List (List Nat)
  writable : String → Bool
  openRead : String → ReadProbe

/-- The per-process mutable state the checks touch: the package-level
`defaultDevices` slice (mutated by `validateDefaultDevices`), the set of
files the write probes created, and a counter standing for the random
suffixes `ioutil.TempFile` draws. -/
structure GState where
  devices : List String
  fs : List String
  tmpCtr : Nat
deriving DecidableEq

/-- The package-level `defaultDevices` list of `cmd/runtimetest/main.go`. -/
def defaultDevices : List String :=
  ["/dev/null", "/dev/zero", "/dev/full", "/dev/random", "/dev/urandom",
   "/dev/tty", "/dev/ptmx"]

/-- The package-level `defaultFS` map (association list in literal order). -/
def defaultFS : List (String × String) :=
  [("/proc", "proc"), ("/sys", "sysfs"), ("/dev/pts", "devpts"),
   ("/dev/shm", "tmpfs")]

/-- The package-level `defaultSymlinks` map (association list in literal
order). -/
def defaultSymlinks : List (String × String) :=
  [("/dev/fd", "/proc/self/fd"), ("/dev/stdin", "/proc/self/fd/0"),
   ("/dev/stdout", "/proc/self/fd/1"), ("/dev/stderr", "/proc/self/fd/2")]

namespace Runtimetest

/-- `if r` is nil, continue with `k`; otherwise propagate the panic/error
(the shape of `if err != nil { return err }`). -/
def goThen (r : GoRes) (k : Unit → GoRes) : GoRes :=
  match r with
  | none => none
  | some (some e) => some (some e)
  | some none => k ()

/-- One declared environment entry (`validateGeneralProcess`, main.go:95-103):
`parts := strings.Split(env, "=")`, `key := parts[0]`,
`expectedValue := parts[1]`.  `strings.Split` splits at every separator, so
for `K=a=b` the expected value is only `a`; an entry without any separator
makes `parts[1]` panic (index out of range). -/
def checkEnvEntry (getenv : String → String) (env : String) : GoRes :=
  match goSplit env '=' with
  | key :: expectedValue :: _ =>
    let actualValue := getenv key
    if actualValue ≠ expectedValue then
      goErr ("Env " ++ key ++ " expected: " ++ expectedValue ++ ", actual: " ++ actualValue)
    else goOk
  | _ => none

/-- main.go:84-106. -/
def validateGeneralProcess (spec : Spec) (live : Live) : GoRes :=
  if spec.process.cwd ≠ "" && live.cwd ≠ spec.process.cwd then
    goErr ("Cwd expected: " ++ spec.process.cwd ++ ", actual: " ++ live.cwd)
  else
    goSeq (checkEnvEntry live.getenv) spec.process.env

/-- main.go:108-163.  The Go code calls `validateGeneralProcess(spec)` on
line 109 without using its result: a returned error is discarded (only a
panic inside it propagates), and the check continues with uid/gid, groups,
arguments and no-new-privileges. -/
def validateLinuxProcess (spec : Spec) (live : Live) : GoRes :=
  match validateGeneralProcess spec live with
  | none => none
  | some _ =>
    if live.uid ≠ spec.process.user.uid then
      goErr ("UID expected: " ++ toString spec.process.user.uid ++ ", actual: " ++ toString live.uid)
    else if live.gid ≠ spec.process.user.gid then
      goErr ("GID expected: " ++ toString spec.process.user.gid ++ ", actual: " ++ toString live.gid)
    else
      goThen (goSeq (fun g =>
          if !(live.groups.contains g) then
            goErr "Groups expected: additional gid missing (should be superset)"
          else goOk) spec.process.user.additionalGids) fun _ =>
      if live.cmdlineArgs.length ≠ spec.process.args.length then
        goErr ("Process arguments expected: " ++ toString spec.process.args.length ++
          ", actual: " ++ toString live.cmdlineArgs.length)
      else
        goThen (goSeq (fun p =>
            if p.1 ≠ p.2 then
              goErr ("Process arguments expected: " ++ p.1 ++ ", actual: " ++ p.2)
            else goOk) (live.cmdlineArgs.zip spec.process.args)) fun _ =>
        if spec.process.noNewPrivileges && !live.noNewPrivs then
          goErr "NoNewPrivileges expected: true, actual: false"
        else if !spec.process.noNewPrivileges && live.noNewPrivs then
          goErr "NoNewPrivileges expected: false, actual: true"
        else goOk

/-- The capability map key `fmt.Sprintf("CAP_%s", strings.ToUpper(cap.String()))`. -/
def capKey (c : Cap) : String := "CAP_" ++ goToUpper c.name

/-- The declared name list of one capability set; all five are empty when no
capabilities object is declared (main.go:173-194). -/
def declaredCapList (decl : Option Capabilities) (S : CapSet) : List String :=
  match decl with
  | none => []
  | some c => c.ofSet S

/-- Comparison of one (set, capability) pair (main.go:202-241). -/
def checkCapSet (decl : Option Capabilities) (get : CapSet → Nat → Bool)
    (c : Cap) (S : CapSet) : Option GoErr :=
  let expectedSet := (declaredCapList decl S).contains (capKey c)
  let actuallySet := get S c.idx
  if expectedSet ≠ actuallySet then
    if expectedSet then
      some ⟨"Expected " ++ S.label ++ " capability " ++ c.name ++ " not set for process", none⟩
    else
      some ⟨"Unexpected " ++ S.label ++ " capability " ++ c.name ++ " set for process", none⟩
  else none

/-- The capability loop of main.go:196-242: every enumerated capability not
above the platform maximum, five sets each, first mismatch returned. -/
def capCheckCore (decl : Option Capabilities) (caps : List Cap) (last : Nat)
    (get : CapSet → Nat → Bool) : Option GoErr :=
  caps.findSome? (fun c =>
    if last < c.idx then none
    else capSetsOrder.findSome? (checkCapSet decl get c))

/-- main.go:165-245. -/
def validateCapabilities (spec : Spec) (live : Live) : GoRes :=
  some (capCheckCore spec.process.capabilities live.capList live.capMax live.capGet)

/-- main.go:247-256. -/
def validateHostname (spec : Spec) (live : Live) : GoRes :=
  if spec.hostname ≠ "" && live.hostname ≠ spec.hostname then
    goErr ("Hostname expected: " ++ spec.hostname ++ ", actual: " ++ live.hostname)
  else goOk

/-- main.go:258-278.  `strToRlimit` (an auxiliary table not present under
`src/`) is modelled by `live.rlimitResolve`; per the spec an unknown
symbolic name yields an unknown-limit error. -/
def validateRlimits (spec : Spec) (live : Live) : GoRes :=
  goSeq (fun r =>
    match live.rlimitResolve r.type with
    | none => goErr ("wrong rlimit value: " ++ r.type)
    | some rl =>
      let rlimit := live.getrlimit rl
      if rlimit.1 ≠ r.soft then
        goErr (r.type ++ " rlimit soft expected: " ++ toString r.soft ++
          ", actual: " ++ toString rlimit.1)
      else if rlimit.2 ≠ r.hard then
        goErr (r.type ++ " rlimit hard expected: " ++ toString r.hard ++
          ", actual: " ++ toString rlimit.2)
      else goOk) spec.process.rlimits

/-- Strips a given character from both ends (`bytes.Trim(v, "\x00")`). -/
def trimChar (c : Char) (s : String) : String :=
  String.mk (((s.toList.dropWhile (· == c)).reverse.dropWhile (· == c)).reverse)

/-- `strings.TrimSpace(string(bytes.Trim(vBytes, "\x00")))` (main.go:290). -/
def sysctlValue (raw : String) : String :=
  goTrimSpace (trimChar (Char.ofNat 0) raw)

/-- main.go:280-296. -/
def validateSysctls (spec : Spec) (live : Live) : GoRes :=
  match spec.linux with
  | none => goOk
  | some linux =>
    goSeq (fun kv =>
      let keyPath := filepathJoin "/proc/sys" (goReplaceChar kv.1 '.' '/')
      match live.sysctlRaw keyPath with
      | none => goErr ("open " ++ keyPath ++ ": no such file or directory")
      | some raw =>
        let value := sysctlValue raw
        if value ≠ kv.2 then
          goErr ("Sysctl " ++ kv.1 ++ " value expected: " ++ kv.2 ++ ", actual: " ++ value)
        else goOk) linux.sysctl

/-- `os.RemoveAll p` on the modelled file set: removes `p` and everything
below it. -/
def removeAll (target : String) (fs : List String) : List String :=
  fs.filter (fun p => !(p == target || List.isPrefixOf (target ++ "/").toList p.toList))

/-- main.go:298-308.  `ioutil.TempFile(path, "Test")` creates
`path/Test<rand>` and `tmpfile.Name()` returns that full path, so the
`os.RemoveAll(filepath.Join(path, tmpfile.Name()))` on line 305 aims at
`path` joined with an already-absolute path.  The random suffix is modelled
by the `tmpCtr` counter. -/
def testWriteAccess (live : Live) (path : String) (st : GState) : GoRes × GState :=
  if live.writable path then
    let name := filepathJoin path ("Test" ++ toString st.tmpCtr)
    let fs1 := name :: st.fs
    let target := filepathJoin path name
    (goOk, { st with fs := removeAll target fs1, tmpCtr := st.tmpCtr + 1 })
  else
    (goErr ("open " ++ path ++ ": permission denied"), st)

/-- main.go:310-319. -/
def validateRootFS (spec : Spec) (live : Live) (st : GState) : GoRes × GState :=
  if spec.root.readonly then
    match testWriteAccess live "/" st with
    | (some none, st') => (goErr "Rootfs should be readonly", st')
    | (_, st') => (goOk, st')
  else (goOk, st)

/-- The `mountsMap[fs]` lookup of main.go:329-332: a Go map built by
iteration, so the last record at a mountpoint wins; absent keys give `""`. -/
def mountsFstype (mounts : List MountInfo) (mp : String) : String :=
  mounts.foldl (fun acc mi => if mi.mountpoint == mp then mi.fstype else acc) ""

/-- main.go:321-341.  The error is an rfc2119-graded error built by
`validate.NewError(validate.DefaultFilesystems, …)`; the validate package is
not under `src/`, and per the spec/message text ("SHOULD exist") the
requirement strength of this check is SHOULD. -/
def validateDefaultFS (spec : Spec) (live : Live) : GoRes :=
  goSeq (fun fsEntry =>
    if !(mountsFstype live.mounts fsEntry.1 == fsEntry.2) then
      goErrL .should (fsEntry.1 ++ " SHOULD exist and expected type is " ++ fsEntry.2)
    else goOk) defaultFS

/-- main.go:400-419. -/
def validateDefaultSymlinks (spec : Spec) (live : Live) : GoRes :=
  goSeq (fun link =>
    match live.lstat link.1 with
    | none => goErr ("lstat " ++ link.1 ++ ": no such file or directory")
    | some fi =>
      if fi.kind ≠ FileKind.symlink then
        goErr (link.1 ++ " is not a symbolic link as expected")
      else
        match live.readlink link.1 with
        | none => goErr ("readlink " ++ link.1 ++ ": invalid argument")
        | some realDest =>
          if realDest ≠ link.2 then
            goErr ("link destation of " ++ link.1 ++ " expected is " ++ link.2 ++
              ", actual is " ++ realDest)
          else goOk) defaultSymlinks

/-- `fi.Mode()&os.ModeDevice == os.ModeDevice`: character and block nodes. -/
def isDeviceKind (k : FileKind) : Bool :=
  k == FileKind.char || k == FileKind.block

/-- The body of the device loop of main.go:425-436. -/
def checkDefaultDevice (live : Live) (device : String) : GoRes :=
  match live.stat device with
  | none => goErr ("device node " ++ device ++ " not found")
  | some fi =>
    if !(isDeviceKind fi.kind) then
      goErr ("file " ++ device ++ " is not a device as expected")
    else goOk

/-- main.go:421-439.  Line 423 appends `"/dev/console"` to the package-level
`defaultDevices` slice when the configuration requests a terminal — a
mutation of process-wide state, modelled by threading `GState.devices`. -/
def validateDefaultDevices (spec : Spec) (live : Live) (st : GState) : GoRes × GState :=
  let devs := if spec.process.terminal then st.devices ++ ["/dev/console"] else st.devices
  (goSeq (checkDefaultDevice live) devs, { st with devices := devs })

/-- The `devType` classification of main.go:356-366. -/
def devTypeOf (k : FileKind) : String :=
  match k with
  | .char => "c"
  | .block => "b"
  | .fifo => "p"
  | _ => "unmatched"

/-- `major := (dev >> 8) & 0xfff` (main.go:372). -/
def devMajor (dev : Nat) : Nat := (dev >>> 8) &&& 0xfff

/-- `minor := (dev & 0xff) | ((dev >> 12) & 0xfff00)` (main.go:373). -/
def devMinor (dev : Nat) : Nat := (dev &&& 0xff) ||| ((dev >>> 12) &&& 0xfff00)

/-- First non-nil error of a series of field comparisons. -/
def errSeq : List (Option GoErr) → Option GoErr
  | [] => none
  | some e :: _ => some e
  | none :: rest => errSeq rest

/-- The body of the device loop of main.go:347-395, applied to the `stat`
result of the declared path. -/
def checkDeviceStat (device : LinuxDevice) (fStat : FileStat) : Option GoErr :=
  let devType := devTypeOf fStat.kind
  if devType ≠ device.type || (devType == "c" && device.type == "u") then
    some ⟨"device " ++ device.path ++ " expected type is " ++ device.type ++
      ", actual is " ++ devType, none⟩
  else
    errSeq [
      (if devType ≠ "p" then
        if (devMajor fStat.rdev : Int) ≠ device.major ∨ (devMinor fStat.rdev : Int) ≠ device.minor then
          some ⟨device.path ++ " device number expected is " ++ toString device.major ++ ":" ++
            toString device.minor ++ ", actual is " ++ toString (devMajor fStat.rdev) ++ ":" ++
            toString (devMinor fStat.rdev), none⟩
        else none
      else none),
      (match device.fileMode with
       | some fm =>
         if fm &&& 0o777 ≠ fStat.perm &&& 0o777 then
           some ⟨device.path ++ " filemode expected is " ++ toString (fm &&& 0o777) ++
             ", actual is " ++ toString (fStat.perm &&& 0o777), none⟩
         else none
       | none => none),
      (match device.uid with
       | some u =>
         if u ≠ fStat.uid then
           some ⟨device.path ++ " uid expected is " ++ toString u ++
             ", actual is " ++ toString fStat.uid, none⟩
         else none
       | none => none),
      (match device.gid with
       | some g =>
         if g ≠ fStat.gid then
           some ⟨device.path ++ " uid expected is " ++ toString g ++
             ", actual is " ++ toString fStat.gid, none⟩
         else none
       | none => none)]

/-- One declared device (main.go:347-395): `os.Stat` then field comparisons. -/
def checkDevice (live : Live) (device : LinuxDevice) : GoRes :=
  match live.stat device.path with
  | none => goErr ("stat " ++ device.path ++ ": no such file or directory")
  | some fStat => some (checkDeviceStat device fStat)

/-- main.go:343-398. -/
def validateLinuxDevices (spec : Spec) (live : Live) : GoRes :=
  match spec.linux with
  | none => goOk
  | some linux => goSeq (checkDevice live) linux.devices

/-- main.go:441-458. -/
def validateMaskedPaths (spec : Spec) (live : Live) : GoRes :=
  match spec.linux with
  | none => goOk
  | some linux =>
    goSeq (fun maskedPath =>
      match live.openRead maskedPath with
      | .openFail msg => goErr msg
      | .readRes eof =>
        if !eof then goErr (maskedPath ++ " should not be readable") else goOk)
      linux.maskedPaths

/-- Stateful first-error iteration (for checks that run write probes). -/
def goSeqSt (f : α → GState → GoRes × GState) : List α → GState → GoRes × GState
  | [], st => (some none, st)
  | x :: xs, st =>
    match f x st with
    | (none, st') => (none, st')
    | (some (some e), st') => (some (some e), st')
    | (some none, st') => goSeqSt f xs st'

/-- The body of the read-only-paths loop (main.go:464-469): a write probe
that succeeds fails the check; a probe error means the path is read-only. -/
def roProbe (live : Live) (v : String) (st : GState) : GoRes × GState :=
  match testWriteAccess live v st with
  | (some none, st') => (goErr (v ++ " should be readonly"), st')
  | (_, st') => (goOk, st')

/-- main.go:460-472. -/
def validateROPaths (spec : Spec) (live : Live) (st : GState) : GoRes × GState :=
  match spec.linux with
  | none => (goOk, st)
  | some linux => goSeqSt (roProbe live) linux.readonlyPaths st

/-- main.go:474-500 (the configuration's process object is present in this
embedding; the live value is the single integer in
`/proc/self/oom_score_adj`). -/
def validateOOMScoreAdj (spec : Spec) (live : Live) : GoRes :=
  match spec.process.oomScoreAdj with
  | none => goOk
  | some expected =>
    if live.oomScoreAdj ≠ expected then
      goErr ("oomScoreAdj expected: " ++ toString expected ++
        ", actual: " ++ toString live.oomScoreAdj)
    else goOk

/-- One line of a live id-mapping table (main.go:516-533): exactly three
whitespace-separated fields, each a valid 32-bit numeral.  Fields are
modelled after numeral parsing, with the 32-bit range check retained. -/
def parseIDMapLine (fields : List Nat) : Option LinuxIDMapping :=
  match fields with
  | [hostID, containerID, size] =>
    if hostID < 2 ^ 32 && containerID < 2 ^ 32 && size < 2 ^ 32 then
      some ⟨hostID, containerID, size⟩
    else none
  | _ => none

/-- main.go:502-537. -/
def getIDMappings (lines : List (List Nat)) : Option (List LinuxIDMapping) :=
  lines.mapM parseIDMapLine

/-- main.go:539-561. -/
def validateIDMappings (mappings : List LinuxIDMapping) (lines : List (List Nat))
    (path : String) (property : String) : GoRes :=
  match getIDMappings lines with
  | none => goErr ("can not get items: invalid format in " ++ path)
  | some idMaps =>
    if mappings.length ≠ 0 && mappings.length ≠ idMaps.length then
      goErr ("expected " ++ toString mappings.length ++ " entries in " ++ path ++
        ", but acutal is " ++ toString idMaps.length)
    else
      goSeq (fun v =>
        if !(idMaps.any (fun cv =>
            v.hostID == cv.hostID && v.containerID == cv.containerID && v.size == cv.size)) then
          goErr (property ++ " is not applied as expected")
        else goOk) mappings

/-- main.go:563-568. -/
def validateUIDMappings (spec : Spec) (live : Live) : GoRes :=
  match spec.linux with
  | none => goOk
  | some linux =>
    validateIDMappings linux.uidMappings live.uidMapLines "/proc/self/uid_map" "linux.uidMappings"

/-- main.go:570-575. -/
def validateGIDMappings (spec : Spec) (live : Live) : GoRes :=
  match spec.linux with
  | none => goOk
  | some linux =>
    validateIDMappings linux.gidMappings live.gidMapLines "/proc/self/gid_map" "linux.gidMappings"

/-- main.go:577-591. -/
def mountMatch (specMount sysMount : Mount) : Option GoErr :=
  if filepathClean specMount.destination ≠ sysMount.destination then
    some ⟨"mount destination expected: " ++ specMount.destination ++
      ", actual: " ++ sysMount.destination, none⟩
  else if specMount.type ≠ sysMount.type then
    some ⟨"mount " ++ specMount.destination ++ " type expected: " ++ specMount.type ++
      ", actual: " ++ sysMount.type, none⟩
  else if filepathClean specMount.source ≠ sysMount.source then
    some ⟨"mount " ++ specMount.destination ++ " source expected: " ++ specMount.source ++
      ", actual: " ++ sysMount.source, none⟩
  else none

/-- main.go:593-628 (bind/rbind mounts are skipped; the live records at the
canonicalized destination are tried in table order). -/
def validateMountsExist (spec : Spec) (live : Live) : GoRes :=
  let mountsMap : String → List Mount := fun mp =>
    (live.mounts.filter (fun mi => mi.mountpoint == mp)).map
      (fun mi => ⟨mi.mountpoint, mi.fstype, mi.source⟩)
  goSeq (fun specMount =>
    if specMount.type == "bind" || specMount.type == "rbind" then goOk
    else if (mountsMap (filepathClean specMount.destination)).any
        (fun sysMount => (mountMatch specMount sysMount).isNone) then goOk
    else goErr ("Expected mount " ++ specMount.destination ++ " does not exist"))
    spec.mounts

/-- One registry entry: a check function plus its human description
(the `validation` struct of main.go:62-65, with the package-level state
threaded explicitly). -/
structure Check where
  test : Spec → Live → GState → GoRes × GState
  description : String

/-- Wraps a check that does not touch the package-level state. -/
def liftCheck (f : Spec → Live → GoRes) (d : String) : Check :=
  ⟨fun σ L st => (f σ L, st), d⟩

/-- main.go:646-659. -/
def defaultValidations : List Check :=
  [⟨validateRootFS, "root filesystem"⟩,
   liftCheck validateHostname "hostname",
   liftCheck validateMountsExist "mounts"]

/-- main.go:661-714. -/
def linuxValidations : List Check :=
  [liftCheck validateCapabilities "capabilities",
   liftCheck validateDefaultSymlinks "default symlinks",
   liftCheck validateDefaultFS "default file system",
   ⟨validateDefaultDevices, "default devices"⟩,
   liftCheck validateLinuxDevices "linux devices",
   liftCheck validateLinuxProcess "linux process",
   liftCheck validateMaskedPaths "masked paths",
   liftCheck validateOOMScoreAdj "oom score adj",
   ⟨validateROPaths, "read only paths"⟩,
   liftCheck validateRlimits "rlimits",
   liftCheck validateSysctls "sysctls",
   liftCheck validateUIDMappings "uid mappings",
   liftCheck validateGIDMappings "gid mappings"]

/-- The checks `run` executes: the default checks, plus the Linux checks
when the platform is Linux (main.go:726-748). -/
def registry (isLinux : Bool) : List Check :=
  defaultValidations ++ (if isLinux then linuxValidations else [])

/-- Whether a failure is retained for the aggregated error
(main.go:730-733): an `*rfc2119.Error` below the configured compliance
level is dropped; everything else is appended. -/
def keepErr (cl : Level) (e : GoErr) : Bool :=
  match e.level with
  | some l => !(decide (l < cl))
  | none => true

/-- What one run produces: the TAP report (`t.Ok(err == nil, description)`
per check), the multierror aggregate, and the package-level state after the
run.  `none` when a check panicked (the process crashes). -/
structure RunResult where
  report : List (String × Bool)
  aggregated : List GoErr
  state : GState
deriving DecidableEq

/-- The check loop of main.go:726-748. -/
def runLoop (cl : Level) (σ : Spec) (L : Live) :
    List Check → GState → List (String × Bool) → List GoErr → Option RunResult
  | [], st, rep, errs => some ⟨rep, errs, st⟩
  | c :: cs, st, rep, errs =>
    match c.test σ L st with
    | (none, _) => none
    | (some r, st') =>
      runLoop cl σ L cs st'
        (rep ++ [(c.description, r.isNone)])
        (match r with
         | none => errs
         | some e => if keepErr cl e then errs ++ [e] else errs)

/-- main.go:630-752: `run` executes the default validations, then the Linux
validations when the platform is Linux, sharing the report and the
aggregated multierror. -/
def run (cl : Level) (isLinux : Bool) (σ : Spec) (L : Live) (st : GState) : Option RunResult :=
  match runLoop cl σ L defaultValidations st [] [] with
  | none => none
  | some r =>
    if isLinux then runLoop cl σ L linuxValidations r.state r.report r.aggregated
    else some r

/-- The plain per-check outcome sequence of a list of checks: each check run
once in order, its returned error recorded, the package state threaded;
`none` when some check panics. -/
def checkOutcomes (σ : Spec) (L : Live) :
    List Check → GState → Option (List (Option GoErr) × GState)
  | [], st => some ([], st)
  | c :: cs, st =>
    match c.test σ L st with
    | (none, _) => none
    | (some r, st') =>
      match checkOutcomes σ L cs st' with
      | none => none
      | some (os, st'') => some (r :: os, st'')

end Runtimetest

namespace RuntimetestV0

/-- The component loop of `isParent` (part_001:463-479): Go iterates over
the parent's components and reads `cparts[i]`; when the child has fewer
components than the parent and is a component-for-component match so far,
the read `cparts[i]` is out of range and the program panics (`none`).
`filepath.ToSlash` is the identity on slash-separated platforms. -/
def isParentAux (pparts cparts : List String) : Option Bool :=
  match pparts with
  | [] => some true
  | part :: rest =>
    match cparts with
    | [] => none
    | c :: crest =>
      if c ≠ part then some false
      else isParentAux rest crest

/-- part_001:463-479. -/
def isParent (parent child : String) : Option Bool :=
  if parent == child then some false
  else isParentAux (goSplit parent '/') (goSplit child '/')

/-- `pathindex` of part_001:484-490: the index of the last occurrence. -/
def lastIndexOf (x : String) (xs : List String) : Option Nat :=
  (xs.foldl (fun (acc : Option Nat × Nat) mp =>
    (if mp == x then some acc.2 else acc.1, acc.2 + 1)) (none, 0)).1

/-- The shadowing scan of part_001:497-511 over the records after the last
occurrence of `path`: a later record that re-mounts exactly at `path`
resets the flag; a later record whose path is a parent of `path` sets it
(`isParent` may panic). -/
def scanShadow (path : String) : List String → Bool → Option Bool
  | [], hasParent => some hasParent
  | other :: rest, hasParent =>
    if other == path then scanShadow path rest false
    else
      match isParent other path with
      | none => none
      | some true => scanShadow path rest true
      | some false => scanShadow path rest hasParent

/-- part_001:481-514. -/
def isMountPoint (path : String) (mountinfos : List MountInfo) : Option Bool :=
  let mounts := mountinfos.map (fun mi => mi.mountpoint)
  match lastIndexOf path mounts with
  | none => some false
  | some i =>
    match scanShadow path (mounts.drop (i + 1)) false with
    | none => none
    | some hasParent => some (!hasParent)

/-- The inner loop of `findNestedPaths` (part_001:519-525). -/
def findNestedIn (parent : String) : List String → Option (Option String)
  | [] => some none
  | child :: rest =>
    match isParent parent child with
    | none => none
    | some true => some (some child)
    | some false => findNestedIn parent rest

/-- The outer loop of `findNestedPaths`. -/
def findNestedOuter (paths : List String) : List String → Option (Option (String × String))
  | [] => some none
  | parent :: rest =>
    match findNestedIn parent paths with
    | none => none
    | some (some child) => some (some (parent, child))
    | some none => findNestedOuter paths rest

/-- part_001:516-528. -/
def findNestedPaths (paths : List String) : Option (Option (String × String)) :=
  findNestedOuter paths paths

/-- part_001:530-586: the mount topology (ordering) check.  `specMounts`
are the declared mounts in declaration order, `mountinfos` the live table
in kernel order.  The check is a no-op on Windows. -/
def validateMountOrder (specMounts : List Mount) (mountinfos : List MountInfo)
    (isWindows : Bool) : GoRes :=
  if isWindows then goOk
  else
    let mounts := specMounts.map (fun m => filepathClean m.destination)
    match findNestedPaths mounts with
    | none => none
    | some none => goOk
    | some (some (A, B)) =>
      let first := (mounts.find? (fun m => A == m || B == m)).getD ""
      match isMountPoint A mountinfos with
      | none => none
      | some false => goErr ("expected \"" ++ A ++ "\" to be a mountpoint")
      | some true =>
        match isMountPoint B mountinfos with
        | none => none
        | some okB =>
          if first == A && !okB then
            goErr ("expected \"" ++ B ++ "\" to be a mountpoint")
          else if first == B && okB then
            goErr ("expected \"" ++ B ++ "\" to not be a mountpoint")
          else goOk

end RuntimetestV0

namespace Runtimetest

theorem goSeq_append (f : α → GoRes) (xs ys : List α) :
    goSeq f (xs ++ ys) =
      match goSeq f xs with
      | some none => goSeq f ys
      | r => r := by
  induction xs with
  | nil => simp [goSeq]
  | cons x xs ih =>
    simp only [List.cons_append, goSeq]
    cases f x with
    | none => rfl
    | some r =>
      cases r with
      | none => exact ih
      | some e => rfl

theorem goSeq_snoc_snoc (f : α → GoRes) (xs : List α) (c : α) :
    goSeq f ((xs ++ [c]) ++ [c]) = goSeq f (xs ++ [c]) := by
  rw [goSeq_append f (xs ++ [c]) [c]]
  rcases h : goSeq f (xs ++ [c]) with _ | _ | e
  · rfl
  · rw [goSeq_append f xs [c]] at h
    rcases h2 : goSeq f xs with _ | _ | e2 <;> rw [h2] at h <;> simp_all
  · rfl

theorem checkOutcomes_append (σ : Spec) (L : Live) (cs ds : List Check) (st : GState) :
    checkOutcomes σ L (cs ++ ds) st =
      (checkOutcomes σ L cs st).bind (fun p =>
        (checkOutcomes σ L ds p.2).map (fun q => (p.1 ++ q.1, q.2))) := by
  induction cs generalizing st with
  | nil =>
    simp only [List.nil_append, checkOutcomes]
    rcases h : checkOutcomes σ L ds st with _ | p <;> simp [h]
  | cons c cs ih =>
    simp only [List.cons_append, checkOutcomes, List.append_eq]
    cases htest : c.test σ L st with
    | mk r st1 =>
      cases r with
      | none => rfl
      | some r0 =>
        dsimp only
        rw [ih]
        rcases h2 : checkOutcomes σ L cs st1 with _ | ⟨os, st2⟩
        · rfl
        · rcases h3 : checkOutcomes σ L ds st2 with _ | q <;> simp [h3]

theorem checkOutcomes_length (σ : Spec) (L : Live) (cs : List Check) (st : GState)
    (os : List (Option GoErr)) (stf : GState)
    (h : checkOutcomes σ L cs st = some (os, stf)) : os.length = cs.length := by
  induction cs generalizing st os with
  | nil =>
    simp only [checkOutcomes, Option.some_inj, Prod.mk.injEq] at h
    simp [← h.1]
  | cons c cs ih =>
    simp only [checkOutcomes] at h
    cases htest : c.test σ L st with
    | mk r st1 =>
      rw [htest] at h
      cases r with
      | none => exact absurd h (by simp)
      | some r0 =>
        dsimp only at h
        rcases h2 : checkOutcomes σ L cs st1 with _ | ⟨os2, st2⟩
        · rw [h2] at h; exact absurd h (by simp)
        · rw [h2] at h
          simp only [Option.some_inj, Prod.mk.injEq] at h
          have hos : os = r0 :: os2 := h.1.symm
          subst hos
          simp [ih st1 os2 (by rw [h2, h.2])]

theorem runLoop_eq (cl : Level) (σ : Spec) (L : Live) (cs : List Check) (st : GState)
    (rep : List (String × Bool)) (errs : List GoErr) :
    runLoop cl σ L cs st rep errs =
      (checkOutcomes σ L cs st).map (fun p =>
        ⟨rep ++ (cs.map Check.description).zip (p.1.map Option.isNone),
         errs ++ (p.1.filterMap id).filter (keepErr cl), p.2⟩) := by
  induction cs generalizing st rep errs with
  | nil => simp [runLoop, checkOutcomes]
  | cons c cs ih =>
    simp only [runLoop, checkOutcomes]
    cases htest : c.test σ L st with
    | mk r st1 =>
      cases r with
      | none => rfl
      | some r0 =>
        dsimp only
        rw [ih]
        rcases h2 : checkOutcomes σ L cs st1 with _ | ⟨os, st2⟩
        · rfl
        · rcases r0 with _ | e
          · simp [List.filterMap_cons]
          · rcases hk : keepErr cl e with _ | _ <;>
              simp [List.filterMap_cons, hk]

theorem run_eq (cl : Level) (isLinux : Bool) (σ : Spec) (L : Live) (st : GState) :
    run cl isLinux σ L st =
      (checkOutcomes σ L (registry isLinux) st).map (fun p =>
        ⟨((registry isLinux).map Check.description).zip (p.1.map Option.isNone),
         (p.1.filterMap id).filter (keepErr cl), p.2⟩) := by
  cases isLinux with
  | false =>
    simp only [run, registry, if_neg Bool.false_ne_true, List.append_nil, runLoop_eq]
    rcases h : checkOutcomes σ L defaultValidations st with _ | p
    · rfl
    · simp
  | true =>
    simp only [run, registry, if_pos rfl, runLoop_eq, checkOutcomes_append]
    rcases h : checkOutcomes σ L defaultValidations st with _ | ⟨os, st1⟩
    · rfl
    · have hlen : os.length = defaultValidations.length :=
        checkOutcomes_length σ L defaultValidations st os st1 h
      have hz : (defaultValidations.map Check.description).length =
          (os.map Option.isNone).length := by simp [hlen]
      simp only [Option.map_some', Option.some_bind, if_pos rfl, runLoop_eq]
      rcases h2 : checkOutcomes σ L linuxValidations st1 with _ | ⟨os2, st2⟩ <;>
        simp [h2, List.zip_append hz, List.filterMap_append, List.filter_append,
          List.map_append, List.append_assoc]

end Runtimetest

open Runtimetest

/-- A minimal declared process used by concrete scenarios. -/
def proc0 : Process := {
  terminal := false, cwd := "", env := [], args := [],
  noNewPrivileges := false, user := ⟨0, 0, []⟩, capabilities := none,
  rlimits := [], oomScoreAdj := none }

/-- A minimal configuration (no Linux section, no mounts). -/
def spec0 : Spec := {
  hostname := "", root := ⟨false⟩, process := proc0,
  mounts := [], linux := none }

/-- A character-device stat result. -/
def devStat0 : FileStat := ⟨.char, 0, 0, 0, 0⟩

/-- A symlink stat result. -/
def linkStat0 : FileStat := ⟨.symlink, 0, 0, 0, 0⟩

/-- The default device paths plus the terminal-only console device. -/
def allDevPaths : List String := defaultDevices ++ ["/dev/console"]

/-- A live state on which every check of the registry passes for `spec0`:
the default filesystems are mounted, the default device nodes are character
devices, the default symlinks resolve to their expected targets, and the
process identity matches `proc0`. -/
def live0 : Live := {
  cwd := "", getenv := fun _ => "", uid := 0, gid := 0, groups := [],
  cmdlineArgs := [], noNewPrivs := false, capMax := 0, capList := [],
  capGet := fun _ _ => false, hostname := "", rlimitResolve := fun _ => none,
  getrlimit := fun _ => (0, 0), sysctlRaw := fun _ => none,
  stat := fun p => if allDevPaths.contains p then some devStat0 else none,
  lstat := fun p => if (defaultSymlinks.map Prod.fst).contains p then some linkStat0 else none,
  readlink := fun p => (defaultSymlinks.filter (fun kv => kv.1 == p)).head?.map Prod.snd,
  mounts := defaultFS.map (fun kv => ⟨kv.1, kv.2, "src"⟩),
  oomScoreAdj := 0, uidMapLines := [], gidMapLines := [],
  writable := fun _ => false, openRead := fun _ => .readRes true }

/-- The package-level state at process start. -/
def gstate0 : GState := ⟨defaultDevices, [], 0⟩

/-- Claim C1: whenever every check of the registry (the default checks plus,
on Linux, the Linux checks) yields an outcome on the given configuration and
live state, `run` records exactly one pass/fail entry per registry check, in
registry order, and its single aggregated error collects exactly the
retained failures — a mismatch from one check never prevents a later check
from running, and failures accumulate instead of aborting the run. -/
theorem C1_runner_complete (cl : Level) (isLinux : Bool) (σ : Spec) (L : Live)
    (st : GState) (os : List (Option GoErr)) (stf : GState)
    (h : checkOutcomes σ L (registry isLinux) st = some (os, stf)) :
    run cl isLinux σ L st =
      some ⟨((registry isLinux).map Check.description).zip (os.map Option.isNone),
            (os.filterMap id).filter (keepErr cl), stf⟩ ∧
    os.length = (registry isLinux).length := by
  refine ⟨?_, checkOutcomes_length _ _ _ _ _ _ h⟩
  rw [run_eq, h]
  rfl

/-- Concrete instantiation of the claim-C1 theorem: on `spec0`/`live0` all
sixteen registry checks run, all pass, and the aggregate is empty. -/
theorem C1_runner_complete_witness :
    run Level.must true spec0 live0 gstate0 =
      some ⟨((registry true).map Check.description).zip
              ((List.replicate 16 (none : Option GoErr)).map Option.isNone),
            ((List.replicate 16 (none : Option GoErr)).filterMap id).filter (keepErr Level.must),
            gstate0⟩ ∧
    (List.replicate 16 (none : Option GoErr)).length = (registry true).length :=
  C1_runner_complete Level.must true spec0 live0 gstate0 (List.replicate 16 none) gstate0 rfl

/-- Claim C2 (code behaviour on the spec scenario): with declared mounts
`/a` then `/a/b` and a live table listing `/a` mounted then `/a/b` mounted,
the topology check does not return success — it panics (`none`): while
verifying that the ancestor `/a` is an active mountpoint, the scan over the
later records calls `isParent "/a/b" "/a"`, which indexes the child's
component array out of range.  The second conjunct isolates the panicking
call. -/
theorem C2_mount_order_panics :
    RuntimetestV0.validateMountOrder
      [⟨"/a", "ext4", "/dev/sda1"⟩, ⟨"/a/b", "ext4", "/dev/sda2"⟩]
      [⟨"/a", "ext4", "/dev/sda1"⟩, ⟨"/a/b", "ext4", "/dev/sda2"⟩] false = none ∧
    RuntimetestV0.isParent "/a/b" "/a" = none := by
  exact ⟨rfl, rfl⟩

/-- The configuration of the claim-C3 scenario: declared environment entry
`FOO=bar`, everything else minimal. -/
def spec3 : Spec := {
  hostname := "", root := ⟨false⟩,
  process := { proc0 with env := ["FOO=bar"] },
  mounts := [], linux := none }

/-- Claim C3 (code behaviour on the spec scenario): with declared entry
`FOO=bar` and no live `FOO` (and a live process that matches the declared
identity otherwise), the env comparison inside `validateGeneralProcess`
does produce the expected-bar/actual-empty error, but `validateLinuxProcess`
— the "linux process" check — discards that result and succeeds.  The third
conjunct shows the entry is not split on the first separator only: with
declared `FOO=bar=baz` and the live value exactly `bar=baz`, the check still
fails, comparing against the truncated expected value `bar`. -/
theorem C3_env_mismatch_discarded :
    validateGeneralProcess spec3 live0 = goErr "Env FOO expected: bar, actual: " ∧
    validateLinuxProcess spec3 live0 = goOk ∧
    checkEnvEntry (fun k => if k == "FOO" then "bar=baz" else "") "FOO=bar=baz" =
      goErr "Env FOO expected: bar, actual: bar=baz" := by
  exact ⟨rfl, rfl, rfl⟩

/-- A live state in which every directory is writable. -/
def liveW : Live := { live0 with writable := fun _ => true }

/-- Claim C7 (code behaviour at the failing input): probing the writable
directory `/a` creates `/a/Test0`, but the removal targets
`filepath.Join("/a", "/a/Test0") = "/a/a/Test0"`, so the created file is
still present when the probe returns success.  The last conjunct shows the
one directory where the join accident is harmless: probing `/` removes the
created file. -/
theorem C7_probe_leaves_residue :
    (testWriteAccess liveW "/a" gstate0).1 = goOk ∧
    (testWriteAccess liveW "/a" gstate0).2.fs = ["/a/Test0"] ∧
    (testWriteAccess liveW "/" gstate0).2.fs = [] := by
  exact ⟨rfl, rfl, rfl⟩

/-- Claim C10: when the configuration has no Linux section, the declared
linux devices, sysctls, masked paths, read-only paths and uid/gid mapping
checks succeed for every live state, reading nothing and (for the stateful
read-only-paths check) leaving the package state untouched. -/
theorem C10_nil_linux_section (σ : Spec) (hσ : σ.linux = none) (L : Live) :
    validateLinuxDevices σ L = goOk ∧
    validateSysctls σ L = goOk ∧
    validateMaskedPaths σ L = goOk ∧
    (∀ st, validateROPaths σ L st = (goOk, st)) ∧
    validateUIDMappings σ L = goOk ∧
    validateGIDMappings σ L = goOk := by
  refine ⟨?_, ?_, ?_, fun st => ?_, ?_, ?_⟩ <;>
    simp [validateLinuxDevices, validateSysctls, validateMaskedPaths,
      validateROPaths, validateUIDMappings, validateGIDMappings, hσ]

/-- Concrete instantiation of the claim-C10 theorem on `spec0` (which has
no Linux section) and `live0`. -/
theorem C10_nil_linux_section_witness :
    validateLinuxDevices spec0 live0 = goOk ∧
    validateSysctls spec0 live0 = goOk ∧
    validateMaskedPaths spec0 live0 = goOk ∧
    validateROPaths spec0 live0 gstate0 = (goOk, gstate0) ∧
    validateUIDMappings spec0 live0 = goOk ∧
    validateGIDMappings spec0 live0 = goOk :=
  have H := C10_nil_linux_section spec0 rfl live0
  ⟨H.1, H.2.1, H.2.2.1, H.2.2.2.1 gstate0, H.2.2.2.2.1, H.2.2.2.2.2⟩

namespace Runtimetest

theorem goSeq_cond_ok (f : α → Bool) (msg : α → String) (l : List α) :
    goSeq (fun v => if !(f v) then goErr (msg v) else goOk) l = goOk ↔
      ∀ v ∈ l, f v = true := by
  induction l with
  | nil => simp [goSeq, goOk]
  | cons x xs ih =>
    rcases h : f x with _ | _
    · simp only [goSeq, h, Bool.not_false, if_true, goErr, goOk]
      constructor
      · intro hc; exact absurd hc (by simp)
      · intro hall; exact absurd (hall x (List.mem_cons_self x xs)) (by simp [h])
    · simp only [goSeq, h, Bool.not_true, if_false, goOk, goErr] at ih ⊢
      constructor
      · intro hc v hv
        rcases List.mem_cons.mp hv with rfl | hv'
        · exact h
        · exact ih.mp hc v hv'
      · intro hall
        exact ih.mpr (fun v hv => hall v (List.mem_cons_of_mem x hv))

theorem idMapMatch_iff (v cv : LinuxIDMapping) :
    (v.hostID == cv.hostID && v.containerID == cv.containerID && v.size == cv.size) = true ↔
      v = cv := by
  cases v; cases cv
  simp [LinuxIDMapping.mk.injEq, and_assoc]

end Runtimetest

/-- Claim C5: over any successfully parsed live mapping table `L`: an empty
declared list always passes; a non-empty declared list fails when its length
differs from the live list's; with equal lengths, the check succeeds exactly
when every declared triple occurs verbatim somewhere in the live list. -/
theorem C5_id_mappings (M : List LinuxIDMapping) (lines : List (List Nat))
    (L : List LinuxIDMapping) (pathArg propArg : String)
    (hL : getIDMappings lines = some L) :
    (M = [] → validateIDMappings M lines pathArg propArg = goOk) ∧
    (M ≠ [] → M.length ≠ L.length →
      validateIDMappings M lines pathArg propArg =
        goErr ("expected " ++ toString M.length ++ " entries in " ++ pathArg ++
          ", but acutal is " ++ toString L.length)) ∧
    (M ≠ [] → M.length = L.length →
      (validateIDMappings M lines pathArg propArg = goOk ↔ ∀ v ∈ M, v ∈ L)) := by
  refine ⟨?_, ?_, ?_⟩
  · intro hM
    subst hM
    simp [validateIDMappings, hL, goSeq, goOk]
  · intro hM hlen
    have hM' : M.length ≠ 0 := fun h0 => hM (List.length_eq_zero.mp h0)
    simp [validateIDMappings, hL, hM', hlen]
  · intro hM hlen
    have hunfold : validateIDMappings M lines pathArg propArg =
        goSeq (fun v => if !(L.any (fun cv => v.hostID == cv.hostID &&
            v.containerID == cv.containerID && v.size == cv.size)) then
          goErr (propArg ++ " is not applied as expected") else goOk) M := by
      simp [validateIDMappings, hL, hlen]
    rw [hunfold,
      Runtimetest.goSeq_cond_ok
        (fun v => L.any (fun cv => v.hostID == cv.hostID &&
          v.containerID == cv.containerID && v.size == cv.size))
        (fun _ => propArg ++ " is not applied as expected") M]
    constructor
    · intro h v hv
      rcases List.any_eq_true.mp (h v hv) with ⟨cv, hcv, hmatch⟩
      exact (Runtimetest.idMapMatch_iff v cv).mp hmatch ▸ hcv
    · intro h v hv
      exact List.any_eq_true.mpr ⟨v, h v hv, (Runtimetest.idMapMatch_iff v v).mpr rfl⟩

/-- Concrete instantiation of the claim-C5 theorem: a one-entry declared
list matching the single live line passes. -/
theorem C5_id_mappings_witness :
    validateIDMappings [⟨1, 2, 3⟩] [[1, 2, 3]] "/proc/self/uid_map" "linux.uidMappings" = goOk :=
  ((C5_id_mappings [⟨1, 2, 3⟩] [[1, 2, 3]] [⟨1, 2, 3⟩] "/proc/self/uid_map"
      "linux.uidMappings" rfl).2.2 (by simp) rfl).mpr (by simp)

namespace Runtimetest

theorem checkCapSet_isSome (decl : Option Capabilities) (get : CapSet → Nat → Bool)
    (c : Cap) (S : CapSet) :
    (checkCapSet decl get c S).isSome =
      ((declaredCapList decl S).contains (capKey c) != get S c.idx) := by
  rcases h1 : (declaredCapList decl S).contains (capKey c) with _ | _ <;>
    rcases h2 : get S c.idx with _ | _
  · have h1' : ¬ capKey c ∈ declaredCapList decl S := by simpa using h1
    simp [checkCapSet, h1', h2]
  · have h1' : ¬ capKey c ∈ declaredCapList decl S := by simpa using h1
    simp [checkCapSet, h1', h2]
  · have h1' : capKey c ∈ declaredCapList decl S := by simpa using h1
    simp [checkCapSet, h1', h2]
  · have h1' : capKey c ∈ declaredCapList decl S := by simpa using h1
    simp [checkCapSet, h1', h2]

end Runtimetest

/-- Claim C4: the capability check fails exactly when some enumerated
capability not above the platform maximum has, in one of the five sets, a
live membership different from its declared membership (with all five
declared sets empty when no capabilities object is declared); a mismatch
with the capability declared produces the "Expected … not set" error and a
mismatch with the capability undeclared the "Unexpected … set" error, each
naming the set and the capability. -/
theorem C4_capabilities (decl : Option Capabilities) (caps : List Cap) (last : Nat)
    (get : CapSet → Nat → Bool) :
    ((capCheckCore decl caps last get).isSome ↔
      ∃ c ∈ caps, c.idx ≤ last ∧
        ∃ S : CapSet, (declaredCapList decl S).contains (capKey c) ≠ get S c.idx) ∧
    (∀ c S, (declaredCapList decl S).contains (capKey c) = true → get S c.idx = false →
      checkCapSet decl get c S = some ⟨"Expected " ++ S.label ++ " capability " ++
        c.name ++ " not set for process", none⟩) ∧
    (∀ c S, (declaredCapList decl S).contains (capKey c) = false → get S c.idx = true →
      checkCapSet decl get c S = some ⟨"Unexpected " ++ S.label ++ " capability " ++
        c.name ++ " set for process", none⟩) ∧
    (decl = none → ∀ S, declaredCapList decl S = []) := by
  refine ⟨?_, ?_, ?_, ?_⟩
  · simp only [capCheckCore, List.findSome?_isSome_iff]
    constructor
    · rintro ⟨c, hc, hsome⟩
      by_cases hle : last < c.idx
      · rw [if_pos hle] at hsome; simp at hsome
      · rw [if_neg hle] at hsome
        rw [List.findSome?_isSome_iff] at hsome
        rcases hsome with ⟨S, _, hcs⟩
        refine ⟨c, hc, Nat.le_of_not_lt hle, S, ?_⟩
        rw [Runtimetest.checkCapSet_isSome] at hcs
        exact bne_iff_ne.mp hcs
    · rintro ⟨c, hc, hle, S, hne⟩
      refine ⟨c, hc, ?_⟩
      rw [if_neg (Nat.not_lt.mpr hle), List.findSome?_isSome_iff]
      refine ⟨S, by cases S <;> simp [capSetsOrder], ?_⟩
      rw [Runtimetest.checkCapSet_isSome]
      exact bne_iff_ne.mpr hne
  · intro c S h1 h2
    have h1' : capKey c ∈ declaredCapList decl S := by simpa using h1
    simp [checkCapSet, h1', h2]
  · intro c S h1 h2
    have h1' : ¬ capKey c ∈ declaredCapList decl S := by simpa using h1
    simp [checkCapSet, h1', h2]
  · intro h S
    subst h
    rfl

/-- A concrete capability for witnesses. -/
def cap0 : Cap := ⟨0, "chown"⟩

/-- Concrete instantiation of the claim-C4 theorem: `CAP_CHOWN` declared in
the bounding set but not live makes the check fail, with the
expected-but-missing message. -/
theorem C4_capabilities_witness :
    (capCheckCore (some ⟨["CAP_CHOWN"], [], [], [], []⟩) [cap0] 63 (fun _ _ => false)).isSome ∧
    checkCapSet (some ⟨["CAP_CHOWN"], [], [], [], []⟩) (fun _ _ => false) cap0 CapSet.bounding =
      some ⟨"Expected bounding capability chown not set for process", none⟩ :=
  have H := C4_capabilities (some ⟨["CAP_CHOWN"], [], [], [], []⟩) [cap0] 63 (fun _ _ => false)
  ⟨H.1.mpr ⟨cap0, by decide, by decide, CapSet.bounding, by decide⟩,
   H.2.1 cap0 CapSet.bounding (by decide) rfl⟩

/-- Claim C8 counterexample: the declared device of the spec scenario with
kind "u" (unbuffered character) and matching major/minor 1:2, observed as a
character node with raw device id 258 (major 1, minor 2), is rejected by the
check — a declared "u" is not satisfied by an observed character device. -/
theorem C8_unbuffered_char_counterexample :
    checkDeviceStat ⟨"/dev/fancy", "u", 1, 2, none, none, none⟩ ⟨.char, 0, 258, 0, 0⟩ =
      some ⟨"device /dev/fancy expected type is u, actual is c", none⟩ ∧
    devMajor 258 = 1 ∧ devMinor 258 = 2 := by
  exact ⟨rfl, rfl, rfl⟩

/-- Claim C8 as amended: a declared kind "u" is never satisfied (the type
condition rejects every observed kind, character devices included); the
decoded major is bits 8–19 of the raw device id and the decoded minor the
low byte combined with bits 20–31; the major/minor comparison is skipped for
fifo-kind devices (the result ignores the raw device id) and performed for
matching character/block kinds (a number mismatch is reported); any observed
mode that is not character, block or fifo fails as "unmatched". -/
theorem C8_device_amended :
    (∀ (d : LinuxDevice) (s : FileStat), d.type = "u" → checkDeviceStat d s ≠ none) ∧
    (∀ dev i : Nat, (devMajor dev).testBit i = (decide (i < 12) && dev.testBit (i + 8))) ∧
    (∀ dev i : Nat, (devMinor dev).testBit i =
      (if i < 8 then dev.testBit i else (decide (i < 20) && dev.testBit (i + 12)))) ∧
    (∀ (d : LinuxDevice) (s : FileStat) (n : Nat), d.type = "p" → s.kind = FileKind.fifo →
      checkDeviceStat d { s with rdev := n } = checkDeviceStat d s) ∧
    (∀ (d : LinuxDevice) (s : FileStat),
      (d.type = "c" ∧ s.kind = FileKind.char) ∨ (d.type = "b" ∧ s.kind = FileKind.block) →
      ((devMajor s.rdev : Int) ≠ d.major ∨ (devMinor s.rdev : Int) ≠ d.minor) →
      checkDeviceStat d s = some ⟨d.path ++ " device number expected is " ++
        toString d.major ++ ":" ++ toString d.minor ++ ", actual is " ++
        toString (devMajor s.rdev) ++ ":" ++ toString (devMinor s.rdev), none⟩) ∧
    (∀ (d : LinuxDevice) (s : FileStat),
      (s.kind = FileKind.symlink ∨ s.kind = FileKind.dir ∨ s.kind = FileKind.regular) →
      (d.type = "b" ∨ d.type = "c" ∨ d.type = "u" ∨ d.type = "p") →
      checkDeviceStat d s = some ⟨"device " ++ d.path ++ " expected type is " ++ d.type ++
        ", actual is unmatched", none⟩) := by
  refine ⟨?_, ?_, ?_, ?_, ?_, ?_⟩
  · intro d s h
    cases hk : s.kind <;> simp [checkDeviceStat, devTypeOf, h, hk]
  · intro dev i
    have h : (0xfff : Nat) = 2 ^ 12 - 1 := rfl
    simp only [devMajor, h, Nat.testBit_and, Nat.testBit_shiftRight,
      Nat.testBit_two_pow_sub_one]
    rw [Nat.add_comm 8 i, Bool.and_comm]
  · intro dev i
    have h8 : (0xff : Nat) = 2 ^ 8 - 1 := rfl
    have hm : (0xfff00 : Nat) = (2 ^ 12 - 1) <<< 8 := rfl
    simp only [devMinor, h8, hm, Nat.testBit_or, Nat.testBit_and,
      Nat.testBit_shiftRight, Nat.testBit_shiftLeft, Nat.testBit_two_pow_sub_one]
    by_cases hc : i < 8
    · have h1 : ¬ 8 ≤ i := Nat.not_le.mpr hc
      simp [hc, h1]
    · have h1 : 8 ≤ i := Nat.le_of_not_lt hc
      have h2 : (i - 8 < 12) = (i < 20) := by
        apply propext; omega
      simp [hc, h1, h2, Nat.add_comm 12 i]
      cases h3 : decide (i < 20) <;> simp_all
  · intro d s n hd hk
    simp [checkDeviceStat, devTypeOf, hd, hk, errSeq]
  · intro d s hmatch hmm
    rcases hmatch with ⟨hd, hk⟩ | ⟨hd, hk⟩ <;>
      simp [checkDeviceStat, devTypeOf, hd, hk, errSeq, hmm]
  · intro d s hk ht
    have hu : devTypeOf s.kind = "unmatched" := by
      rcases hk with h | h | h <;> simp [devTypeOf, h]
    rcases ht with h | h | h | h <;>
      simp [checkDeviceStat, hu, h] <;>
        (rw [String.append_assoc]; rfl)

/-- Concrete instantiation of the amended claim-C8 theorem: a "u" device is
rejected even when observed as a character node; bit 0 of the decoded major
is bit 8 of the raw id; a block device with a wrong declared minor gets the
device-number error; a declared block device observed as a directory fails
as "unmatched". -/
theorem C8_device_amended_witness :
    checkDeviceStat ⟨"/dev/fancy", "u", 1, 2, none, none, none⟩ ⟨.char, 0, 258, 0, 0⟩ ≠ none ∧
    (devMajor 258).testBit 0 = (decide ((0 : Nat) < 12) && (258 : Nat).testBit (0 + 8)) ∧
    checkDeviceStat ⟨"/dev/sdb", "b", 1, 3, none, none, none⟩ ⟨.block, 0, 258, 0, 0⟩ =
      some ⟨"/dev/sdb" ++ " device number expected is " ++ toString (1 : Int) ++ ":" ++
        toString (3 : Int) ++ ", actual is " ++ toString (devMajor 258) ++ ":" ++
        toString (devMinor 258), none⟩ ∧
    checkDeviceStat ⟨"/dev/dir", "b", 1, 2, none, none, none⟩ ⟨.dir, 0, 258, 0, 0⟩ =
      some ⟨"device " ++ "/dev/dir" ++ " expected type is " ++ "b" ++ ", actual is unmatched",
        none⟩ :=
  have H := C8_device_amended
  ⟨H.1 ⟨"/dev/fancy", "u", 1, 2, none, none, none⟩ ⟨.char, 0, 258, 0, 0⟩ rfl,
   H.2.1 258 0,
   H.2.2.2.2.1 ⟨"/dev/sdb", "b", 1, 3, none, none, none⟩ ⟨.block, 0, 258, 0, 0⟩
     (Or.inr ⟨rfl, rfl⟩) (Or.inr (by decide)),
   H.2.2.2.2.2 ⟨"/dev/dir", "b", 1, 2, none, none, none⟩ ⟨.dir, 0, 258, 0, 0⟩
     (Or.inr (Or.inl rfl)) (Or.inl rfl)⟩

/-- Claim C6: in every completed run, a check failure is always recorded as
failing in the per-check report; it enters the aggregated fatal error
exactly when it is retained, and a failure carrying a requirement strength
is dropped exactly when that strength is below the configured minimum (so
one at or above always contributes).  The minimum defaults to MUST — the
strongest level — when the flag does not parse. -/
theorem C6_compliance_grading (cl : Level) (isLinux : Bool) (σ : Spec) (L : Live)
    (st : GState) (os : List (Option GoErr)) (stf : GState) (r : RunResult)
    (h : checkOutcomes σ L (registry isLinux) st = some (os, stf))
    (hr : run cl isLinux σ L st = some r) :
    (∀ (i : Nat) (e : GoErr), os[i]? = some (some e) →
      (r.report[i]?).map (fun p : String × Bool => p.2) = some false) ∧
    (∀ e : GoErr, e ∈ r.aggregated ↔ some e ∈ os ∧ keepErr cl e = true) ∧
    (∀ e : GoErr, ∀ l, e.level = some l → (keepErr cl e = false ↔ l < cl)) ∧
    (∀ l : Level, l ≤ Level.must) ∧
    (∀ s, parseLevel s = none → complianceFromString s = Level.must) := by
  rw [run_eq, h] at hr
  simp only [Option.map_some', Option.some_inj] at hr
  subst hr
  refine ⟨?_, ?_, ?_, ?_, ?_⟩
  · intro i e hi
    have hlen : os.length = (registry isLinux).length :=
      checkOutcomes_length _ _ _ _ _ _ h
    have hil : i < os.length := by
      by_contra hc
      rw [List.getElem?_eq_none (Nat.le_of_not_lt hc)] at hi
      exact absurd hi (by simp)
    have hd : i < ((registry isLinux).map Check.description).length := by
      simpa [hlen] using hil
    have h1 : ((registry isLinux).map Check.description)[i]? =
        some (((registry isLinux).map Check.description).get ⟨i, hd⟩) :=
      List.getElem?_eq_getElem hd
    have h2 : (os.map Option.isNone)[i]? = some false := by
      rw [List.getElem?_map, hi]; rfl
    have hz : (((registry isLinux).map Check.description).zip (os.map Option.isNone))[i]? =
        some ((((registry isLinux).map Check.description).get ⟨i, hd⟩), false) :=
      List.getElem?_zip_eq_some.mpr ⟨h1, h2⟩
    show ((((registry isLinux).map Check.description).zip
      (os.map Option.isNone))[i]?).map (fun p : String × Bool => p.2) = some false
    rw [hz]
    rfl
  · intro e
    simp [List.mem_filter, List.mem_filterMap, id]
  · intro e l hl
    simp [keepErr, hl]
  · intro l
    cases l <;> decide
  · intro s hp
    simp [complianceFromString, hp]

/-- A live state identical to `live0` but with an empty mount table, making
the SHOULD-graded default-filesystem check fail. -/
def live6 : Live := { live0 with mounts := [] }

/-- The failure produced by the default-filesystem check on `live6`. -/
def fsErr6 : GoErr := ⟨"/proc SHOULD exist and expected type is proc", some Level.should⟩

/-- The per-check outcomes of the registry on `spec0`/`live6`: only the
default-filesystem check (index 5) fails. -/
def os6 : List (Option GoErr) :=
  [none, none, none, none, none, some fsErr6,
   none, none, none, none, none, none, none, none, none, none]

/-- The run result on `spec0`/`live6` at compliance level MUST: the failure
is reported, but its SHOULD strength keeps it out of the aggregate. -/
def r6 : RunResult :=
  ⟨((registry true).map Check.description).zip (os6.map Option.isNone), [], gstate0⟩

/-- Concrete instantiation of the claim-C6 theorem on the `live6` scenario:
the SHOULD-graded failure is reported as failing but excluded from the
MUST-level aggregate. -/
theorem C6_compliance_grading_witness :
    ((r6.report[5]?).map (fun p : String × Bool => p.2) = some false) ∧
    (fsErr6 ∈ r6.aggregated ↔ some fsErr6 ∈ os6 ∧ keepErr Level.must fsErr6 = true) ∧
    (keepErr Level.must fsErr6 = false ↔ Level.should < Level.must) ∧
    Level.should ≤ Level.must ∧
    complianceFromString "bogus" = Level.must :=
  have H := C6_compliance_grading Level.must true spec0 live6 gstate0 os6 gstate0 r6 rfl rfl
  ⟨H.1 5 fsErr6 rfl, H.2.1 fsErr6, H.2.2.1 fsErr6 Level.should rfl,
   H.2.2.2.1 Level.should, H.2.2.2.2 "bogus" rfl⟩

namespace Runtimetest

/-- State-independence of a check: its returned error does not depend on the
package-level state, and it leaves the `defaultDevices` slice untouched.
Every registry check except "default devices" has this property. -/
def StIndep (c : Check) : Prop :=
  ∀ (σ : Spec) (L : Live) (st₁ st₂ : GState),
    (c.test σ L st₁).1 = (c.test σ L st₂).1 ∧
    (c.test σ L st₁).2.devices = st₁.devices

theorem stIndep_lift (f : Spec → Live → GoRes) (d : String) : StIndep (liftCheck f d) :=
  fun _ _ _ _ => ⟨rfl, rfl⟩

theorem testWriteAccess_fst (L : Live) (p : String) (st₁ st₂ : GState) :
    (testWriteAccess L p st₁).1 = (testWriteAccess L p st₂).1 := by
  by_cases h : L.writable p <;> simp [testWriteAccess, h]

theorem testWriteAccess_devices (L : Live) (p : String) (st : GState) :
    (testWriteAccess L p st).2.devices = st.devices := by
  by_cases h : L.writable p <;> simp [testWriteAccess, h]

theorem stIndep_rootFS : StIndep ⟨validateRootFS, "root filesystem"⟩ := by
  intro σ L st₁ st₂
  by_cases h : σ.root.readonly
  · constructor
    · have hf := testWriteAccess_fst L "/" st₁ st₂
      rcases h1 : testWriteAccess L "/" st₁ with ⟨r1, s1⟩
      rcases h2 : testWriteAccess L "/" st₂ with ⟨r2, s2⟩
      rw [h1, h2] at hf
      simp only at hf
      subst hf
      show (validateRootFS σ L st₁).1 = (validateRootFS σ L st₂).1
      simp only [validateRootFS, if_pos h, h1, h2]
      rcases r1 with _ | _ | e <;> rfl
    · have hd := testWriteAccess_devices L "/" st₁
      rcases h1 : testWriteAccess L "/" st₁ with ⟨r1, s1⟩
      rw [h1] at hd
      show (validateRootFS σ L st₁).2.devices = st₁.devices
      simp only [validateRootFS, if_pos h, h1]
      rcases r1 with _ | _ | e <;> simpa using hd
  · constructor <;> simp [validateRootFS, h]

theorem roProbe_fst (L : Live) (v : String) (st₁ st₂ : GState) :
    (roProbe L v st₁).1 = (roProbe L v st₂).1 := by
  have hf := testWriteAccess_fst L v st₁ st₂
  rcases h1 : testWriteAccess L v st₁ with ⟨r1, s1⟩
  rcases h2 : testWriteAccess L v st₂ with ⟨r2, s2⟩
  rw [h1, h2] at hf
  simp only at hf
  subst hf
  simp only [roProbe, h1, h2]
  rcases r1 with _ | _ | e <;> rfl

theorem roProbe_devices (L : Live) (v : String) (st : GState) :
    (roProbe L v st).2.devices = st.devices := by
  have hd := testWriteAccess_devices L v st
  rcases h1 : testWriteAccess L v st with ⟨r1, s1⟩
  rw [h1] at hd
  simp only [roProbe, h1]
  rcases r1 with _ | _ | e <;> simpa using hd

theorem goSeqSt_indep (f : α → GState → GoRes × GState)
    (hf1 : ∀ x st₁ st₂, (f x st₁).1 = (f x st₂).1)
    (hf2 : ∀ x st, (f x st).2.devices = st.devices) (ps : List α) :
    ∀ st₁ st₂ : GState,
      ((goSeqSt f ps st₁).1 = (goSeqSt f ps st₂).1) ∧
      (goSeqSt f ps st₁).2.devices = st₁.devices := by
  induction ps with
  | nil => intro st₁ st₂; exact ⟨rfl, rfl⟩
  | cons x ps ih =>
    intro st₁ st₂
    have hf := hf1 x st₁ st₂
    rcases h1 : f x st₁ with ⟨r1, s1⟩
    rcases h2 : f x st₂ with ⟨r2, s2⟩
    rw [h1, h2] at hf
    simp only at hf
    subst hf
    have hd1 : s1.devices = st₁.devices := by
      have := hf2 x st₁; rw [h1] at this; exact this
    simp only [goSeqSt, h1, h2]
    rcases r1 with _ | _ | e
    · exact ⟨rfl, hd1⟩
    · exact ⟨(ih s1 s2).1, ((ih s1 s2).2).trans hd1⟩
    · exact ⟨rfl, hd1⟩

theorem stIndep_roPaths : StIndep ⟨validateROPaths, "read only paths"⟩ := by
  intro σ L st₁ st₂
  rcases hσ : σ.linux with _ | lx
  · constructor <;> simp [validateROPaths, hσ]
  · have := goSeqSt_indep (roProbe L) (roProbe_fst L) (roProbe_devices L)
      lx.readonlyPaths st₁ st₂
    constructor
    · show (validateROPaths σ L st₁).1 = (validateROPaths σ L st₂).1
      simp only [validateROPaths, hσ]
      exact this.1
    · show (validateROPaths σ L st₁).2.devices = st₁.devices
      simp only [validateROPaths, hσ]
      exact this.2

end Runtimetest

namespace Runtimetest

theorem checkOutcomes_indep (σ : Spec) (L : Live) :
    ∀ cs : List Check, (∀ c ∈ cs, StIndep c) →
      ∀ st₁ st₂ : GState,
        ((checkOutcomes σ L cs st₁).map Prod.fst =
          (checkOutcomes σ L cs st₂).map Prod.fst) ∧
        (∀ os stf, checkOutcomes σ L cs st₁ = some (os, stf) → stf.devices = st₁.devices) := by
  intro cs
  induction cs with
  | nil =>
    intro _ st₁ st₂
    refine ⟨rfl, ?_⟩
    intro os stf h
    simp only [checkOutcomes, Option.some_inj, Prod.mk.injEq] at h
    rw [← h.2]
  | cons c cs ih =>
    intro hcs st₁ st₂
    obtain ⟨hf, hd⟩ := hcs c (List.mem_cons_self c cs) σ L st₁ st₂
    have hcs' : ∀ c' ∈ cs, StIndep c' := fun c' hc' => hcs c' (List.mem_cons_of_mem c hc')
    rcases h1 : c.test σ L st₁ with ⟨r1, s1⟩
    rcases h2 : c.test σ L st₂ with ⟨r2, s2⟩
    rw [h1, h2] at hf
    simp only at hf
    subst hf
    have hdev1 : s1.devices = st₁.devices := by rw [h1] at hd; exact hd
    constructor
    · simp only [checkOutcomes, h1, h2]
      rcases r1 with _ | r0
      · rfl
      · have hih := (ih hcs' s1 s2).1
        rcases hx : checkOutcomes σ L cs s1 with _ | ⟨os1, t1⟩ <;>
          rcases hy : checkOutcomes σ L cs s2 with _ | ⟨os2, t2⟩
        · simp [hx, hy]
        · rw [hx, hy] at hih; exact absurd hih (by simp)
        · rw [hx, hy] at hih; exact absurd hih (by simp)
        · rw [hx, hy] at hih
          simp only [Option.map_some', Option.some_inj] at hih
          simp [hx, hy, hih]
    · intro os stf h
      simp only [checkOutcomes, h1] at h
      rcases r1 with _ | r0
      · exact absurd h (by simp)
      · dsimp only at h
        rcases hx : checkOutcomes σ L cs s1 with _ | ⟨os1, t1⟩
        · rw [hx] at h; exact absurd h (by simp)
        · rw [hx] at h
          simp only [Option.some_inj, Prod.mk.injEq] at h
          have ht1 : t1.devices = s1.devices := (ih hcs' s1 s1).2 os1 t1 hx
          rw [← h.2]
          exact ht1.trans hdev1

/-- The registry checks before "default devices". -/
def checksA : List Check :=
  [⟨validateRootFS, "root filesystem"⟩,
   liftCheck validateHostname "hostname",
   liftCheck validateMountsExist "mounts",
   liftCheck validateCapabilities "capabilities",
   liftCheck validateDefaultSymlinks "default symlinks",
   liftCheck validateDefaultFS "default file system"]

/-- The one check that mutates the package-level device list. -/
def ddCheck : Check := ⟨validateDefaultDevices, "default devices"⟩

/-- The registry checks after "default devices". -/
def checksB : List Check :=
  [liftCheck validateLinuxDevices "linux devices",
   liftCheck validateLinuxProcess "linux process",
   liftCheck validateMaskedPaths "masked paths",
   liftCheck validateOOMScoreAdj "oom score adj",
   ⟨validateROPaths, "read only paths"⟩,
   liftCheck validateRlimits "rlimits",
   liftCheck validateSysctls "sysctls",
   liftCheck validateUIDMappings "uid mappings",
   liftCheck validateGIDMappings "gid mappings"]

theorem registry_split : registry true = checksA ++ ddCheck :: checksB := rfl

theorem checksA_indep : ∀ c ∈ checksA, StIndep c := by
  intro c hc
  simp only [checksA, List.mem_cons, List.not_mem_nil, or_false] at hc
  rcases hc with rfl | rfl | rfl | rfl | rfl | rfl
  · exact stIndep_rootFS
  · exact stIndep_lift _ _
  · exact stIndep_lift _ _
  · exact stIndep_lift _ _
  · exact stIndep_lift _ _
  · exact stIndep_lift _ _

theorem checksB_indep : ∀ c ∈ checksB, StIndep c := by
  intro c hc
  simp only [checksB, List.mem_cons, List.not_mem_nil, or_false] at hc
  rcases hc with rfl | rfl | rfl | rfl | rfl | rfl | rfl | rfl | rfl
  · exact stIndep_lift _ _
  · exact stIndep_lift _ _
  · exact stIndep_lift _ _
  · exact stIndep_lift _ _
  · exact stIndep_roPaths
  · exact stIndep_lift _ _
  · exact stIndep_lift _ _
  · exact stIndep_lift _ _
  · exact stIndep_lift _ _

/-- The per-run derived device list (main.go:422-423). -/
def devsAfter (σ : Spec) (d : List String) : List String :=
  if σ.process.terminal then d ++ ["/dev/console"] else d

theorem validateDefaultDevices_eq (σ : Spec) (L : Live) (st : GState) :
    validateDefaultDevices σ L st =
      (goSeq (checkDefaultDevice L) (devsAfter σ st.devices),
       { st with devices := devsAfter σ st.devices }) := rfl

theorem checkDefaultDevice_ne_none (L : Live) (x : String) :
    checkDefaultDevice L x ≠ none := by
  rcases hs : L.stat x with _ | fi
  · simp [checkDefaultDevice, hs, goErr]
  · by_cases hd : isDeviceKind fi.kind <;>
      simp [checkDefaultDevice, hs, hd, goErr, goOk]

theorem goSeq_checkDefaultDevice_ne_none (L : Live) (l : List String) :
    goSeq (checkDefaultDevice L) l ≠ none := by
  induction l with
  | nil => simp [goSeq]
  | cons x xs ih =>
    simp only [goSeq]
    rcases h : checkDefaultDevice L x with _ | _ | e
    · exact absurd h (checkDefaultDevice_ne_none L x)
    · exact ih
    · simp

theorem devsAfter_twice (σ : Spec) (L : Live) (d : List String) :
    goSeq (checkDefaultDevice L) (devsAfter σ (devsAfter σ d)) =
      goSeq (checkDefaultDevice L) (devsAfter σ d) := by
  by_cases h : σ.process.terminal
  · simp only [devsAfter, if_pos h]
    exact goSeq_snoc_snoc _ d _
  · simp [devsAfter, h]

end Runtimetest

namespace Runtimetest

theorem registry_outcomes_stable (σ : Spec) (L : Live) (st : GState)
    (os1 : List (Option GoErr)) (st1 : GState)
    (h1 : checkOutcomes σ L (registry true) st = some (os1, st1)) :
    (checkOutcomes σ L (registry true) st1).map Prod.fst = some os1 := by
  rw [registry_split, checkOutcomes_append] at h1 ⊢
  rcases hA1 : checkOutcomes σ L checksA st with _ | ⟨osA1, sA1⟩
  · rw [hA1] at h1; exact absurd h1 (by simp)
  rw [hA1] at h1
  simp only [Option.some_bind] at h1
  rcases hg1 : goSeq (checkDefaultDevice L) (devsAfter σ sA1.devices) with _ | rv1
  · exact absurd hg1 (goSeq_checkDefaultDevice_ne_none L _)
  have hdd1 : checkOutcomes σ L (ddCheck :: checksB) sA1 =
      match checkOutcomes σ L checksB { sA1 with devices := devsAfter σ sA1.devices } with
      | none => none
      | some (os, stf) => some (rv1 :: os, stf) := by
    simp only [checkOutcomes, ddCheck, validateDefaultDevices_eq, hg1]
  rw [hdd1] at h1
  rcases hB1 : checkOutcomes σ L checksB { sA1 with devices := devsAfter σ sA1.devices }
      with _ | ⟨osB1, sB1⟩
  · rw [hB1] at h1; exact absurd h1 (by simp)
  rw [hB1] at h1
  simp only [Option.map_some', Option.some_inj, Prod.mk.injEq] at h1
  obtain ⟨hos, hst⟩ := h1
  have hsB1dev : sB1.devices = devsAfter σ sA1.devices := by
    simpa using (checkOutcomes_indep σ L checksB checksB_indep
      { sA1 with devices := devsAfter σ sA1.devices }
      { sA1 with devices := devsAfter σ sA1.devices }).2 osB1 sB1 hB1
  -- second run: the A block gives the same outcomes
  have hAeq := (checkOutcomes_indep σ L checksA checksA_indep st1 st).1
  rw [hA1] at hAeq
  rcases hA2 : checkOutcomes σ L checksA st1 with _ | ⟨osA2, sA2⟩
  · rw [hA2] at hAeq; exact absurd hAeq (by simp)
  rw [hA2] at hAeq
  simp only [Option.map_some', Option.some_inj] at hAeq
  have hsA2dev : sA2.devices = st1.devices :=
    (checkOutcomes_indep σ L checksA checksA_indep st1 st1).2 osA2 sA2 hA2
  have hdevchain : devsAfter σ sA2.devices = devsAfter σ (devsAfter σ sA1.devices) := by
    rw [hsA2dev, ← hst, hsB1dev]
  have hg2 : goSeq (checkDefaultDevice L) (devsAfter σ sA2.devices) = some rv1 := by
    rw [hdevchain, devsAfter_twice]
    exact hg1
  have hdd2 : checkOutcomes σ L (ddCheck :: checksB) sA2 =
      match checkOutcomes σ L checksB { sA2 with devices := devsAfter σ sA2.devices } with
      | none => none
      | some (os, stf) => some (rv1 :: os, stf) := by
    simp only [checkOutcomes, ddCheck, validateDefaultDevices_eq, hg2]
  have hBeq := (checkOutcomes_indep σ L checksB checksB_indep
    { sA2 with devices := devsAfter σ sA2.devices }
    { sA1 with devices := devsAfter σ sA1.devices }).1
  rw [hB1] at hBeq
  rcases hB2 : checkOutcomes σ L checksB { sA2 with devices := devsAfter σ sA2.devices }
      with _ | ⟨osB2, sB2⟩
  · rw [hB2] at hBeq; exact absurd hBeq (by simp)
  rw [hB2] at hBeq
  simp only [Option.map_some', Option.some_inj] at hBeq
  simp only [Option.some_bind, hdd2, hB2]
  simp [hAeq, hBeq, hos]

end Runtimetest

/-- Claim C9: running the full Linux registry twice on an unchanged
configuration and live state — the second run starting from the package
state the first run left behind, including the extended device list when
the configuration requests a terminal — yields the same per-check report
and the same aggregated failures. -/
theorem C9_run_idempotent (cl : Level) (σ : Spec) (L : Live) (st : GState)
    (r1 r2 : RunResult)
    (h1 : run cl true σ L st = some r1)
    (h2 : run cl true σ L r1.state = some r2) :
    r1.report = r2.report ∧ r1.aggregated = r2.aggregated := by
  rw [run_eq] at h1 h2
  rcases ho1 : checkOutcomes σ L (registry true) st with _ | ⟨os1, st1⟩
  · rw [ho1] at h1; exact absurd h1 (by simp)
  rw [ho1] at h1
  simp only [Option.map_some', Option.some_inj] at h1
  subst h1
  dsimp only at h2
  have hstab := registry_outcomes_stable σ L st os1 st1 ho1
  rcases ho2 : checkOutcomes σ L (registry true) st1 with _ | ⟨os2, st2⟩
  · rw [ho2] at h2; exact absurd h2 (by simp)
  rw [ho2] at hstab
  simp only [Option.map_some', Option.some_inj] at hstab
  rw [ho2] at h2
  simp only [Option.map_some', Option.some_inj] at h2
  rw [← h2]
  simp [hstab]

/-- `spec0` with a terminal requested, so the first run extends the
package-level device list. -/
def spec9 : Spec := {
  hostname := "", root := ⟨false⟩,
  process := { proc0 with terminal := true },
  mounts := [], linux := none }

/-- The result of the first run of the registry on `spec9`/`live0`. -/
def r9a : RunResult :=
  ⟨((registry true).map Check.description).zip
      ((List.replicate 16 (none : Option GoErr)).map Option.isNone),
   [], ⟨defaultDevices ++ ["/dev/console"], [], 0⟩⟩

/-- The result of the second run, starting from the first run's state: the
device list grows again, but every outcome is unchanged. -/
def r9b : RunResult :=
  ⟨((registry true).map Check.description).zip
      ((List.replicate 16 (none : Option GoErr)).map Option.isNone),
   [], ⟨(defaultDevices ++ ["/dev/console"]) ++ ["/dev/console"], [], 0⟩⟩

/-- Concrete instantiation of the claim-C9 theorem: two consecutive runs on
`spec9`/`live0` produce identical reports and aggregates. -/
theorem C9_run_idempotent_witness :
    r9a.report = r9b.report ∧ r9a.aggregated = r9b.aggregated :=
  C9_run_idempotent Level.must spec9 live0 gstate0 r9a r9b rfl rfl
